import Mathlib

/-!
Verification development for the `sun2` Home Assistant integration
(`custom_components/sun2/__init__.py` and `custom_components/sun2/helpers.py`).

The integration's shared location cache, entity update binding, astral event
dispatch and the `update_location` service handler are embedded shallowly:
Python dictionaries become association lists, exceptions become `Except` with
an explicit error kind, and side effects performed through the host (dispatcher
sends, config-entry updates, schedule setup) are recorded in an effect trace.
-/

namespace Sun2

/-- Kinds of Python exceptions relevant to the embedded code. -/
inductive PyErr where
  | typeError
  | valueError
  | keyError
  | attributeError
  deriving DecidableEq, Repr

/-- Values stored in Home Assistant configuration / option dictionaries. -/
inductive Val where
  | num (q : Rat)
  | str (s : String)
  deriving DecidableEq, Repr

/-! ### Python `dict` as an association list

`dictGet d k` is `d[k]` (as an `Option`); `dictInsert d k v` is `d[k] = v`,
replacing the binding when the key is present and appending otherwise. -/

/-- Dictionary lookup on an association list (first binding wins). -/
def dictGet {α β : Type} [DecidableEq α] : List (α × β) → α → Option β
  | [], _ => none
  | kv :: rest, k => if kv.1 = k then some kv.2 else dictGet rest k

/-- Dictionary store `d[k] = v`: replace the first binding of `k`, or append. -/
def dictInsert {α β : Type} [DecidableEq α] : List (α × β) → α → β → List (α × β)
  | [], k, v => [(k, v)]
  | kv :: rest, k, v => if kv.1 = k then (k, v) :: rest else kv :: dictInsert rest k v

/-- Python `d.update(e)`: store every binding of `e` into `d`, in order. -/
def dictUpdate {α β : Type} [DecidableEq α] (d e : List (α × β)) : List (α × β) :=
  e.foldl (fun acc kv => dictInsert acc kv.1 kv.2) d

theorem dictGet_dictInsert_self {α β : Type} [DecidableEq α]
    (d : List (α × β)) (k : α) (v : β) : dictGet (dictInsert d k v) k = some v := by
  induction d with
  | nil => simp [dictInsert, dictGet]
  | cons kv rest ih =>
    by_cases h : kv.1 = k
    · simp [dictInsert, dictGet, h]
    · simp [dictInsert, dictGet, h, ih]

theorem dictGet_dictInsert_ne {α β : Type} [DecidableEq α]
    (d : List (α × β)) (k k' : α) (v : β) (h : k' ≠ k) :
    dictGet (dictInsert d k v) k' = dictGet d k' := by
  have hkk : ¬k = k' := fun h' => h h'.symm
  induction d with
  | nil => simp [dictInsert, dictGet, hkk]
  | cons kv rest ih =>
    by_cases hk : kv.1 = k
    · have hk' : ¬kv.1 = k' := fun h' => hkk (hk.symm.trans h')
      simp [dictInsert, dictGet, hk, hk', hkk]
    · by_cases hx : kv.1 = k'
      · simp [dictInsert, dictGet, hk, hx, h, hkk]
      · simp [dictInsert, dictGet, hk, hx, ih]

theorem dictInsert_idem {α β : Type} [DecidableEq α]
    (d : List (α × β)) (k : α) (v : β) :
    dictInsert (dictInsert d k v) k v = dictInsert d k v := by
  induction d with
  | nil => simp [dictInsert]
  | cons kv rest ih =>
    by_cases h : kv.1 = k
    · simp [dictInsert, h]
    · simp [dictInsert, h, ih]

theorem mem_keys_dictInsert {α β : Type} [DecidableEq α]
    (d : List (α × β)) (k x : α) (v : β)
    (hx : x ∈ (dictInsert d k v).map Prod.fst) : x ∈ d.map Prod.fst ∨ x = k := by
  induction d with
  | nil =>
    rw [dictInsert] at hx
    simp only [List.map_cons, List.map_nil, List.mem_singleton] at hx
    exact Or.inr hx
  | cons kv rest ih =>
    by_cases h : kv.1 = k
    · rw [dictInsert, if_pos h] at hx
      simp only [List.map_cons, List.mem_cons] at hx ⊢
      rcases hx with hx | hx
      · exact Or.inr hx
      · exact Or.inl (Or.inr hx)
    · rw [dictInsert, if_neg h] at hx
      simp only [List.map_cons, List.mem_cons] at hx ⊢
      rcases hx with hx | hx
      · exact Or.inl (Or.inl hx)
      · rcases ih hx with h' | h'
        · exact Or.inl (Or.inr h')
        · exact Or.inr h'

theorem keys_nodup_dictInsert {α β : Type} [DecidableEq α]
    (d : List (α × β)) (k : α) (v : β)
    (hd : (d.map Prod.fst).Nodup) : ((dictInsert d k v).map Prod.fst).Nodup := by
  induction d with
  | nil => simp [dictInsert]
  | cons kv rest ih =>
    rw [List.map_cons, List.nodup_cons] at hd
    by_cases h : kv.1 = k
    · rw [dictInsert, if_pos h, List.map_cons, List.nodup_cons]
      exact ⟨h ▸ hd.1, hd.2⟩
    · rw [dictInsert, if_neg h, List.map_cons, List.nodup_cons]
      refine ⟨?_, ih hd.2⟩
      intro hx
      rcases mem_keys_dictInsert rest k kv.1 v hx with h' | h'
      · exact hd.1 h'
      · exact h h'

/-! ### `helpers.py` data model -/

/-- Dataclass `LocParams` (helpers.py): immutable location parameters, used as cache key. -/
structure LocParams where
  elevation : Rat
  latitude : Rat
  longitude : Rat
  time_zone : String
  deriving DecidableEq, Repr

/-- The astral `Location` handle, as far as this integration observes it:
construction parameters plus the mutable `solar_depression` attribute
(astral's default depression is 6 degrees). -/
structure Location where
  name : String
  region : String
  timezone : String
  latitude : Rat
  longitude : Rat
  solar_depression : Rat
  deriving DecidableEq, Repr

/-- Dataclass `LocData` (helpers.py): derived location data. `tzi` is the result of
`dt_util.get_time_zone`, which yields the resolved zone or `None` when the
name is unresolvable, so it is an `Option`. -/
structure LocData where
  loc : Location
  elv : Rat
  tzi : Option String
  deriving DecidableEq, Repr

/-- Constructor `LocData.__init__` (helpers.py lines 75-80): build the astral handle from
`LocationInfo("", "", time_zone, latitude, longitude)` and resolve the time
zone with the host's `dt_util.get_time_zone`, passed here as `resolveTZ`
(that host helper returns the zone, or `None` for an unresolvable name,
rather than raising). -/
def LocData.init (resolveTZ : String → Option String) (lp : LocParams) : LocData :=
  { loc := { name := "", region := "", timezone := lp.time_zone,
             latitude := lp.latitude, longitude := lp.longitude,
             solar_depression := 6 }
    elv := lp.elevation
    tzi := resolveTZ lp.time_zone }

/-- Dataclass `Sun2Data` (helpers.py): the shared per-process state. -/
structure Sun2Data where
  locations : List (Option LocParams × LocData)
  translations : List (String × String)
  deriving DecidableEq, Repr

/-- The keys of the location cache are pairwise distinct (the Python `dict`
guarantees this structurally; the association-list model must preserve it). -/
def keysNodup (s : Sun2Data) : Prop :=
  (s.locations.map Prod.fst).Nodup

instance (s : Sun2Data) : Decidable (keysNodup s) := by
  unfold keysNodup
  infer_instance

/-- A configuration mapping as observed by `get_loc_params`: presence of each
of the four `CONF_*` keys is an `Option` (values are schema-validated to these
types by the `LOC_PARAMS` voluptuous schema). -/
structure ConfigType where
  elevation : Option Rat
  latitude : Option Rat
  longitude : Option Rat
  time_zone : Option String
  deriving DecidableEq, Repr

/-- Function `get_loc_params` (helpers.py lines 91-101): build `LocParams` from the four
configuration keys; any missing key raises `KeyError`, which is caught and
turned into `None`. -/
def get_loc_params (config : ConfigType) : Option LocParams :=
  match config.elevation, config.latitude, config.longitude, config.time_zone with
  | some e, some la, some lo, some tz => some ⟨e, la, lo, tz⟩
  | _, _, _, _ => none

/-! ### `Sun2Entity` (helpers.py) -/

/-- Observable side effects an entity performs through the host. -/
inductive EEffect where
  | dispatcherConnect
  | cancelTimer
  | setupFixedUpdating
  | scheduleUpdateHaState
  | updateState
  deriving DecidableEq, Repr

/-- The mutable per-entity attributes of `Sun2Entity` that the embedded
methods read and write. `_unsub_update` records whether an unsubscribe
callback for a scheduled update is currently stored; `_solar_depression`
is the optional attribute subclasses may set (a number or a named
depression such as "civil"). -/
structure Entity where
  _loc_params : Option LocParams
  _loc_data : Option LocData
  _unsub_update : Bool
  _event : String
  _solar_depression : Option (Rat ⊕ String)
  deriving DecidableEq, Repr

/-- Method `Sun2Entity._get_loc_data` (helpers.py lines 194-216): look the entity's
`_loc_params` up in the shared cache; on `KeyError` construct a `LocData` and
store it (for the `None` key that construction crashes with `AttributeError`,
since `LocData.__init__` reads `lp.time_zone` off `None`); finally, when
`_loc_params` is the `None` sentinel, connect to the `SIG_HA_LOC_UPDATED`
dispatcher signal (recorded as `EEffect.dispatcherConnect`). -/
def _get_loc_data (resolveTZ : String → Option String) (s : Sun2Data)
    (lp : Option LocParams) : Except PyErr (LocData × Sun2Data × List EEffect) :=
  match dictGet s.locations lp with
  | some d => .ok (d, s, if lp = none then [EEffect.dispatcherConnect] else [])
  | none =>
    match lp with
    | some p =>
        .ok (LocData.init resolveTZ p,
             { s with locations :=
                 dictInsert s.locations (some p) (LocData.init resolveTZ p) },
             [])
    | none => .error .attributeError

/-- Method `Sun2Entity.async_update` (helpers.py lines 178-182): resolve the location
data if not yet bound, then recompute the state (`self._update`, recorded as
`EEffect.updateState`). -/
def async_update (resolveTZ : String → Option String) (s : Sun2Data)
    (e : Entity) : Except PyErr (Entity × Sun2Data × List EEffect) :=
  match e._loc_data with
  | some _ => .ok (e, s, [EEffect.updateState])
  | none =>
    match _get_loc_data resolveTZ s e._loc_params with
    | .error pe => .error pe
    | .ok (d, s', effs) =>
        .ok ({ e with _loc_data := some d }, s', effs ++ [EEffect.updateState])

/-- Method `Sun2Entity._cancel_update` (helpers.py lines 188-192): if an unsubscribe
callback is stored, invoke it (recorded as `EEffect.cancelTimer`) and clear it. -/
def _cancel_update (e : Entity) : Entity × List EEffect :=
  if e._unsub_update then ({ e with _unsub_update := false }, [EEffect.cancelTimer])
  else (e, [])

/-- Method `Sun2Entity._async_loc_updated` (helpers.py lines 218-223): cancel any
scheduled update, store the broadcast `LocData`, re-establish fixed updating
and schedule a state update with the host. -/
def _async_loc_updated (e : Entity) (d : LocData) : Entity × List EEffect :=
  let cu := _cancel_update e
  ({ cu.1 with _loc_data := some d },
   cu.2 ++ [EEffect.setupFixedUpdating, EEffect.scheduleUpdateHaState])

/-! ### `Sun2Entity._astral_event` (helpers.py lines 234-259)

The astral library is external; its event methods are a parameter
(`AstralApi`). Dates, directions and returned timestamps are abstracted as
integers; what matters to the embedded code is only which exceptions the
calls raise. -/

/-- The astral event methods `_astral_event` dispatches to. `attr1` models
`getattr(loc, name)(date)` (used for `midnight` / `noon`), `attr2` models
`getattr(loc, name)(date, observer_elevation=...)`. -/
structure AstralApi where
  attr1 : Location → String → Int → Except PyErr Int
  time_at_elevation : Location → Rat → Int → Int → Except PyErr Int
  attr2 : Location → String → Int → Rat → Except PyErr Int

/-- The astral `Location.solar_depression` setter: a number is stored as is;
the named depressions "civil", "nautical" and "astronomical" map to 6, 12 and
18 degrees; any other string raises `KeyError`. -/
def setSolarDepression (loc : Location) : Rat ⊕ String → Except PyErr Location
  | .inl n => .ok { loc with solar_depression := n }
  | .inr s =>
    if s = "civil" then .ok { loc with solar_depression := 6 }
    else if s = "nautical" then .ok { loc with solar_depression := 12 }
    else if s = "astronomical" then .ok { loc with solar_depression := 18 }
    else .error .keyError

/-- The `if hasattr(self, "_solar_depression"): loc.solar_depression = ...`
step at the start of `_astral_event`, performed before the `try` block. -/
def resolveDepression (loc : Location) : Option (Rat ⊕ String) → Except PyErr Location
  | none => .ok loc
  | some dv => setSolarDepression loc dv

/-- The `if not event: event = self._event` default at the start of
`_astral_event` (`not event` is true for `None` and for the empty string). -/
def eventName (e : Entity) : Option String → String
  | none => e._event
  | some s => if s = "" then e._event else s

/-- The body of the `try` block of `_astral_event`: dispatch on the event
name. The `kwargs["elevation"]` / `kwargs["direction"]` subscripts raise
`KeyError` when absent (which the surrounding `except` clause does not
catch). -/
def _astral_event_dispatch (api : AstralApi) (loc : Location) (ev : String)
    (d : Int) (elv? : Option Rat) (dir? : Option Int) (obsElv : Rat) :
    Except PyErr Int :=
  if ev = "solar_midnight" ∨ ev = "solar_noon" then
    api.attr1 loc ((ev.splitOn "_").getD 1 "") d
  else if ev = "time_at_elevation" then
    match elv? with
    | none => .error .keyError
    | some el =>
      match dir? with
      | none => .error .keyError
      | some di => api.time_at_elevation loc el d di
  else
    api.attr2 loc ev d obsElv

/-- Method `Sun2Entity._astral_event` (helpers.py lines 234-259): resolve the event
name, set the solar depression on the (shared) location handle if the entity
has one, then run the dispatch under `try: ... except (TypeError, ValueError):
return None`. Reading `self._loc_data.loc` off an unbound entity raises
`AttributeError`. -/
def _astral_event (api : AstralApi) (e : Entity) (d : Int) (ev? : Option String)
    (elv? : Option Rat) (dir? : Option Int) : Except PyErr (Option Int) :=
  match e._loc_data with
  | none => .error .attributeError
  | some ld =>
    match resolveDepression ld.loc e._solar_depression with
    | .error pe => .error pe
    | .ok loc =>
      match _astral_event_dispatch api loc (eventName e ev?) d elv? dir? ld.elv with
      | .ok v => .ok (some v)
      | .error .typeError => .ok none
      | .error .valueError => .ok none
      | .error pe => .error pe

/-! ### `__init__.py`: host state, services and the core-config handler -/

/-- Home Assistant constants used by the embedded code (values as defined by
the host; `CONF_OBS_ELV` comes from the integration's `const.py`). -/
def SOURCE_USER : String := "user"

def SOURCE_IMPORT : String := "import"

def SOURCE_IGNORE : String := "ignore"

def CONF_LATITUDE : String := "latitude"

def CONF_OBS_ELV : String := "observer_elevation"

/-- The host's core configuration, as read by this integration. -/
structure HassConfig where
  latitude : Rat
  longitude : Rat
  elevation : Rat
  time_zone : String
  location_name : String
  deriving DecidableEq, Repr

/-- A config entry of this integration as the embedded code observes it. -/
structure ConfigEntry where
  entry_id : Nat
  title : String
  source : String
  disabled : Bool
  options : List (String × Val)
  deriving DecidableEq, Repr

/-- The slice of the `HomeAssistant` object the embedded code touches. -/
structure Hass where
  config : HassConfig
  entries : List ConfigEntry
  sunData : Sun2Data
  deriving DecidableEq, Repr

/-- Observable side effects the `__init__.py` handlers perform via the host. -/
inductive HEffect where
  | updateEntryOptionsDone (entry_id : Nat) (options : List (String × Val))
  | updateEntryTitle (entry_id : Nat) (title : String)
  | dispatcherSend (d : LocData)
  | reloadConfig
  | reloadEntry (entry_id : Nat)
  deriving DecidableEq, Repr

/-- Modelled from the spec: `LocData.from_hass_config` is called by
`_update_local_loc_data` but its definition is not among the files at hand.
Per the spec, the default refresh "recomputes the LocationData for the `None`
key from current host configuration", so it derives the astral handle,
elevation and resolved time zone from the host's configured location values,
just as `LocData.__init__` does from explicit parameters. -/
def LocData.from_hass_config (resolveTZ : String → Option String)
    (c : HassConfig) : LocData :=
  LocData.init resolveTZ
    { elevation := c.elevation, latitude := c.latitude,
      longitude := c.longitude, time_zone := c.time_zone }

/-- Function `_update_local_loc_data` (`__init__.py` lines 58-62): derive a fresh
`LocData` from the host's configuration, store it under the `None` key of the
shared cache, and return it. -/
def _update_local_loc_data (resolveTZ : String → Option String)
    (hass : Hass) : LocData × Hass :=
  let ld := LocData.from_hass_config resolveTZ hass.config
  (ld, { hass with
          sunData := { hass.sunData with
                        locations := dictInsert hass.sunData.locations none ld } })

/-- Host call `hass.config_entries.async_entries(DOMAIN, include_ignore=False,
include_disabled=False)`: this integration's entries with ignored and
disabled ones filtered out (host behavior). -/
def async_entries_active (hass : Hass) : List ConfigEntry :=
  hass.entries.filter (fun e => decide (e.source ≠ SOURCE_IGNORE) && !e.disabled)

/-- Function `_entry_by_title` (`__init__.py` lines 97-109): find the loaded entry with
the given title (and a copy of its options); raise `ValueError` if absent. -/
def _entry_by_title (hass : Hass) (title : String) :
    Except PyErr (ConfigEntry × List (String × Val)) :=
  match (async_entries_active hass).find? (fun e => e.title == title) with
  | some e => .ok (e, e.options)
  | none => .error .valueError

/-- Host call `async_update_entry(entry, options=...)` applied to the entry list:
replace the options of the entry with the given id. -/
def applyEntryOptions (hass : Hass) (id : Nat) (opts : List (String × Val)) : Hass :=
  { hass with
    entries := hass.entries.map
      (fun e => if e.entry_id = id then { e with options := opts } else e) }

/-- The `update_location` service handler (`__init__.py` lines 132-145):
resolve the entry by title, reject entries not created by the user and
entries without a latitude in their options (both with `ValueError`), then
merge the call's location fields into the options and update the entry.
`options_from_obs_elv` lives in `config.py`, which is not among the files at
hand; it is taken as the parameter `obsElvXform`, applied exactly when the
call data contains `CONF_OBS_ELV`. Effects performed so far are returned in
the trace even when an exception is raised. -/
def update_location (obsElvXform : List (String × Val) → List (String × Val))
    (hass : Hass) (location : String) (loc_config : List (String × Val)) :
    Except PyErr Hass × List HEffect :=
  match _entry_by_title hass location with
  | .error pe => (.error pe, [])
  | .ok (entry, options) =>
    if entry.source ≠ SOURCE_USER then (.error .valueError, [])
    else if dictGet options CONF_LATITUDE = none then (.error .valueError, [])
    else
      let lc := if (dictGet loc_config CONF_OBS_ELV).isSome then obsElvXform loc_config
                else loc_config
      let newOpts := dictUpdate options lc
      (.ok (applyEntryOptions hass entry.entry_id newOpts),
       [HEffect.updateEntryOptionsDone entry.entry_id newOpts])

/-- The entry loop at the end of `handle_core_config_update`: skip imported
entries; for an entry without a latitude in its options, retitle it to the
host's location name via `async_update_entry` (which returns whether anything
changed — if it did, the entry's update listener performs the reload, so the
handler reloads explicitly only when nothing changed); otherwise reload. -/
def reloadEntriesAux (locName : String) :
    List ConfigEntry → List ConfigEntry × List HEffect
  | [] => ([], [])
  | e :: rest =>
    let r := reloadEntriesAux locName rest
    if e.source = SOURCE_IMPORT then (e :: r.1, r.2)
    else if dictGet e.options CONF_LATITUDE = none then
      if e.title ≠ locName then
        ({ e with title := locName } :: r.1,
         HEffect.updateEntryTitle e.entry_id locName :: r.2)
      else (e :: r.1, HEffect.reloadEntry e.entry_id :: r.2)
    else (e :: r.1, HEffect.reloadEntry e.entry_id :: r.2)

/-- Handler `handle_core_config_update` (`__init__.py` lines 147-170): ignore events
with empty data; otherwise refresh the default cache entry, then either
broadcast the new `LocData` on `SIG_HA_LOC_UPDATED` (when neither the
location name nor the language changed) or re-import the YAML configuration
(`reload_config()`, recorded as `HEffect.reloadConfig` — it only talks to the
host's import machinery) and retitle/reload the non-imported entries. The
event data is abstracted to its key set. -/
def handle_core_config_update (resolveTZ : String → Option String)
    (hass : Hass) (keys : List String) : Hass × List HEffect :=
  if keys = [] then (hass, [])
  else
    let ld := (_update_local_loc_data resolveTZ hass).1
    let hass1 := (_update_local_loc_data resolveTZ hass).2
    if ¬("location_name" ∈ keys ∨ "language" ∈ keys) then
      (hass1, [HEffect.dispatcherSend ld])
    else
      let r := reloadEntriesAux hass1.config.location_name hass1.entries
      ({ hass1 with entries := r.1 }, HEffect.reloadConfig :: r.2)

/-- The cache state after one `_get_loc_data` lookup (unchanged when the
lookup raised). -/
def lookupState (resolveTZ : String → Option String) (s : Sun2Data)
    (lp : Option LocParams) : Sun2Data :=
  match _get_loc_data resolveTZ s lp with
  | .ok (_, s', _) => s'
  | .error _ => s

/-- Thread a sequence of `_get_loc_data` lookups through the cache. -/
def runLookups (resolveTZ : String → Option String) (s : Sun2Data) :
    List (Option LocParams) → Sun2Data
  | [] => s
  | k :: ks => runLookups resolveTZ (lookupState resolveTZ s k) ks

/-- Does an effect broadcast location data on the dispatcher? -/
def isDispatcherSend : HEffect → Bool
  | .dispatcherSend _ => true
  | _ => false

/-! ### Helper lemmas about the cache operations -/

theorem get_loc_data_connect_iff (r : String → Option String) (s : Sun2Data)
    (lp : Option LocParams) (d : LocData) (s' : Sun2Data) (tr : List EEffect)
    (h : _get_loc_data r s lp = .ok (d, s', tr)) :
    EEffect.dispatcherConnect ∈ tr ↔ lp = none := by
  unfold _get_loc_data at h
  split at h
  next d0 hget =>
    simp only [Except.ok.injEq, Prod.mk.injEq] at h
    obtain ⟨rfl, rfl, rfl⟩ := h
    by_cases hp : lp = none <;> simp [hp]
  next hget =>
    split at h
    next p =>
      simp only [Except.ok.injEq, Prod.mk.injEq] at h
      obtain ⟨rfl, rfl, rfl⟩ := h
      simp
    next => exact Except.noConfusion h

theorem get_loc_data_none_entry (r : String → Option String) (s : Sun2Data)
    (k : Option LocParams) (d : LocData) (s' : Sun2Data) (tr : List EEffect)
    (h : _get_loc_data r s k = .ok (d, s', tr)) :
    dictGet s'.locations none = dictGet s.locations none := by
  unfold _get_loc_data at h
  split at h
  next d0 hget =>
    simp only [Except.ok.injEq, Prod.mk.injEq] at h
    obtain ⟨rfl, rfl, rfl⟩ := h
    rfl
  next hget =>
    split at h
    next p =>
      simp only [Except.ok.injEq, Prod.mk.injEq] at h
      obtain ⟨rfl, rfl, rfl⟩ := h
      exact dictGet_dictInsert_ne s.locations (some p) none (LocData.init r p)
        (by simp)
    next => exact Except.noConfusion h

theorem lookupState_none_entry (r : String → Option String) (s : Sun2Data)
    (k : Option LocParams) :
    dictGet (lookupState r s k).locations none = dictGet s.locations none := by
  unfold lookupState
  cases h : _get_loc_data r s k with
  | error pe => rfl
  | ok t => exact get_loc_data_none_entry r s k t.1 t.2.1 t.2.2 (by rw [h])

theorem runLookups_none_entry (r : String → Option String)
    (ks : List (Option LocParams)) :
    ∀ s : Sun2Data,
      dictGet (runLookups r s ks).locations none = dictGet s.locations none := by
  induction ks with
  | nil => intro s; rfl
  | cons k ks ih =>
    intro s
    rw [runLookups, ih, lookupState_none_entry]

/-! ### Concrete sample values (used to instantiate the theorems) -/

/-- A concrete time-zone resolver: only "UTC" resolves. -/
def sampleResolver : String → Option String :=
  fun s => if s = "UTC" then some "UTC" else none

/-- Sample resolvable location parameters. -/
def sampleParams : LocParams := ⟨0, 51, 0, "UTC"⟩

/-- Sample location parameters with an unresolvable time zone. -/
def sampleBadParams : LocParams := ⟨0, 51, 0, "Bad/Zone"⟩

/-- The location data derived from `sampleParams`. -/
def sampleLocData : LocData := LocData.init sampleResolver sampleParams

/-- An empty shared cache. -/
def emptySun2Data : Sun2Data := ⟨[], []⟩

/-- The cache after memoizing `sampleParams`. -/
def sampleCachedData : Sun2Data := ⟨[(some sampleParams, sampleLocData)], []⟩

/-- An astral method table whose `time_at_elevation` reports no solution. -/
def sampleApi : AstralApi :=
  { attr1 := fun _ _ _ => .error .attributeError
    time_at_elevation := fun _ _ _ _ => .error .valueError
    attr2 := fun _ _ _ _ => .error .attributeError }

/-- A bound entity querying `time_at_elevation` with a stored unsubscriber. -/
def sampleEntityTae : Entity := ⟨none, some sampleLocData, true, "time_at_elevation", none⟩

/-- An unbound entity using the host's default location. -/
def sampleEntityDefault : Entity := ⟨none, none, false, "sunrise", none⟩

/-- An imported config entry. -/
def sampleImportEntry : ConfigEntry :=
  ⟨1, "Imported", SOURCE_IMPORT, false, [(CONF_LATITUDE, Val.num 1)]⟩

/-- A sample host with one imported entry and an empty cache. -/
def sampleHass : Hass := ⟨⟨0, 0, 0, "UTC", "home"⟩, [sampleImportEntry], ⟨[], []⟩⟩

/-! ### The claims -/

/-- C10: for every configuration mapping, `get_loc_params` returns a
`LocParams` value exactly when all four keys (elevation, latitude, longitude,
time_zone) are present — and it is built from those values — and returns
`None` (fall back to the host default) as soon as any one of them is missing,
without raising. -/
theorem get_loc_params_all_or_none :
    (∀ c : ConfigType,
      (get_loc_params c).isSome ↔
        (c.elevation.isSome ∧ c.latitude.isSome ∧ c.longitude.isSome ∧
          c.time_zone.isSome)) ∧
    (∀ (e la lo : Rat) (tz : String),
      get_loc_params ⟨some e, some la, some lo, some tz⟩ = some ⟨e, la, lo, tz⟩) := by
  constructor
  · intro c
    obtain ⟨e, la, lo, tz⟩ := c
    cases e <;> cases la <;> cases lo <;> cases tz <;> simp [get_loc_params]
  · intro e la lo tz
    rfl

/-- C8: on a location-updated broadcast, the handler cancels any scheduled
recomputation (clearing the stored unsubscribe callback), swaps in the
broadcast `LocData`, re-establishes the fixed update schedule and requests a
state re-render from the host, in that order. -/
theorem async_loc_updated_spec (e : Entity) (d : LocData)
    (_hb : e._loc_data.isSome) :
    (_async_loc_updated e d).1._loc_data = some d ∧
    (_async_loc_updated e d).1._unsub_update = false ∧
    (_async_loc_updated e d).2 =
      (if e._unsub_update then [EEffect.cancelTimer] else []) ++
        [EEffect.setupFixedUpdating, EEffect.scheduleUpdateHaState] := by
  by_cases hu : e._unsub_update <;>
    simp [_async_loc_updated, _cancel_update, hu]

/-- Witness for C8 at a concrete bound entity with a stored unsubscriber. -/
theorem async_loc_updated_spec_witness :
    (_async_loc_updated sampleEntityTae sampleLocData).1._loc_data = some sampleLocData ∧
    (_async_loc_updated sampleEntityTae sampleLocData).1._unsub_update = false ∧
    (_async_loc_updated sampleEntityTae sampleLocData).2 =
      (if sampleEntityTae._unsub_update then [EEffect.cancelTimer] else []) ++
        [EEffect.setupFixedUpdating, EEffect.scheduleUpdateHaState] :=
  async_loc_updated_spec sampleEntityTae sampleLocData rfl

/-- C5 counterexample: constructing `LocData` for parameters whose time zone
cannot be resolved does not propagate an error — it succeeds and produces a
`LocData` whose resolved-timezone field is the `None` sentinel. -/
theorem locdata_init_unresolvable_cex :
    LocData.init sampleResolver sampleBadParams =
      ⟨⟨"", "", "Bad/Zone", 51, 0, 6⟩, 0, none⟩ := by
  decide

/-- C5 (amended): for every `LocParams` whose `time_zone` cannot be resolved,
`LocData.__init__` succeeds anyway, producing a `LocData` carrying the
unresolved astral handle and `None` as its resolved timezone; the failure is
swallowed, not propagated. -/
theorem locdata_init_swallows_unresolvable (r : String → Option String)
    (lp : LocParams) (h : r lp.time_zone = none) :
    LocData.init r lp =
      ⟨⟨"", "", lp.time_zone, lp.latitude, lp.longitude, 6⟩, lp.elevation, none⟩ := by
  simp [LocData.init, h]

/-- Witness for the amended C5 at a concrete unresolvable zone. -/
theorem locdata_init_swallows_unresolvable_witness :
    LocData.init (fun _ => none) ⟨1, 2, 3, "Nowhere"⟩ =
      ⟨⟨"", "", "Nowhere", 2, 3, 6⟩, 1, none⟩ :=
  locdata_init_swallows_unresolvable (fun _ => none) ⟨1, 2, 3, "Nowhere"⟩ rfl

/-- C2: whenever the dispatched astral call raises `TypeError` or
`ValueError` (for example an elevation never reached on the given date),
`_astral_event` returns `None` ("no event") instead of propagating the
exception. -/
theorem astral_event_no_raise (api : AstralApi) (e : Entity) (d : Int)
    (ev? : Option String) (elv? : Option Rat) (dir? : Option Int)
    (ld : LocData) (loc : Location) (pe : PyErr)
    (hld : e._loc_data = some ld)
    (hdep : resolveDepression ld.loc e._solar_depression = .ok loc)
    (hdisp : _astral_event_dispatch api loc (eventName e ev?) d elv? dir? ld.elv =
      .error pe)
    (hpe : pe = .typeError ∨ pe = .valueError) :
    _astral_event api e d ev? elv? dir? = .ok none := by
  unfold _astral_event
  rw [hld]
  simp only [hdep, hdisp]
  rcases hpe with h | h <;> subst h <;> rfl

/-- Witness for C2: a concrete `time_at_elevation` query with no solution. -/
theorem astral_event_no_raise_witness :
    _astral_event sampleApi sampleEntityTae 0 none (some 90) (some 1) = .ok none :=
  astral_event_no_raise sampleApi sampleEntityTae 0 none (some 90) (some 1)
    sampleLocData sampleLocData.loc .valueError rfl rfl rfl (Or.inr rfl)

/-- C1: if a cache lookup through `_get_loc_data` succeeds for a key `p`, the
returned `LocData` is stored under `p`, a second lookup returns the identical
`LocData` with the cache unchanged (no new construction), and when the first
lookup was a miss the returned value is the one freshly constructed from the
parameters. -/
theorem get_loc_data_identity_cached (r : String → Option String)
    (s : Sun2Data) (p : Option LocParams) (d : LocData) (s' : Sun2Data)
    (tr : List EEffect)
    (h : _get_loc_data r s p = .ok (d, s', tr)) :
    dictGet s'.locations p = some d ∧
    _get_loc_data r s' p =
      .ok (d, s', if p = none then [EEffect.dispatcherConnect] else []) ∧
    (dictGet s.locations p = none → ∃ q, p = some q ∧ d = LocData.init r q) := by
  unfold _get_loc_data at h
  split at h
  next d0 hget =>
    simp only [Except.ok.injEq, Prod.mk.injEq] at h
    obtain ⟨rfl, rfl, rfl⟩ := h
    refine ⟨hget, ?_, ?_⟩
    · unfold _get_loc_data
      rw [hget]
    · intro hc
      rw [hget] at hc
      exact absurd hc (Option.some_ne_none d0)
  next hget =>
    split at h
    next q =>
      simp only [Except.ok.injEq, Prod.mk.injEq] at h
      obtain ⟨rfl, rfl, rfl⟩ := h
      have hstored :
          dictGet (dictInsert s.locations (some q) (LocData.init r q))
            (some q) = some (LocData.init r q) :=
        dictGet_dictInsert_self s.locations (some q) (LocData.init r q)
      refine ⟨hstored, ?_, fun _ => ⟨q, rfl, rfl⟩⟩
      unfold _get_loc_data
      rw [hstored]
    next => exact Except.noConfusion h

/-- Witness for C1: memoizing a concrete key in the empty cache. -/
theorem get_loc_data_identity_cached_witness :
    dictGet sampleCachedData.locations (some sampleParams) = some sampleLocData ∧
    _get_loc_data sampleResolver sampleCachedData (some sampleParams) =
      .ok (sampleLocData, sampleCachedData,
        if (some sampleParams : Option LocParams) = none then
          [EEffect.dispatcherConnect] else []) ∧
    (dictGet emptySun2Data.locations (some sampleParams) = none →
      ∃ q, (some sampleParams : Option LocParams) = some q ∧
        sampleLocData = LocData.init sampleResolver q) :=
  get_loc_data_identity_cached sampleResolver emptySun2Data (some sampleParams)
    sampleLocData sampleCachedData [] rfl

/-- C9: for any update request that succeeds, the entity subscribes to the
default-location dispatcher signal exactly when its configured location
parameters are the `None` sentinel and it was not yet bound (first
resolution); entities with explicit parameters never subscribe; and after the
update the entity is bound. -/
theorem async_update_subscribe_iff (r : String → Option String)
    (s : Sun2Data) (e : Entity) (e' : Entity) (s' : Sun2Data)
    (tr : List EEffect)
    (h : async_update r s e = .ok (e', s', tr)) :
    (EEffect.dispatcherConnect ∈ tr ↔
      (e._loc_params = none ∧ e._loc_data = none)) ∧
    e'._loc_data.isSome := by
  unfold async_update at h
  split at h
  next ld hld =>
    simp only [Except.ok.injEq, Prod.mk.injEq] at h
    obtain ⟨rfl, rfl, rfl⟩ := h
    simp [hld]
  next hld =>
    split at h
    next pe hg => exact Except.noConfusion h
    next d s2 effs hg =>
      simp only [Except.ok.injEq, Prod.mk.injEq] at h
      obtain ⟨rfl, rfl, rfl⟩ := h
      have hc := get_loc_data_connect_iff r s e._loc_params d s2 effs hg
      simp [hld, List.mem_append, hc]

/-- Witness for C9: a default-location entity binding on its first update
against a cache holding the default entry. -/
theorem async_update_subscribe_iff_witness :
    (EEffect.dispatcherConnect ∈
        ([EEffect.dispatcherConnect, EEffect.updateState] : List EEffect) ↔
      (sampleEntityDefault._loc_params = none ∧
        sampleEntityDefault._loc_data = none)) ∧
    (Entity._loc_data
      { sampleEntityDefault with _loc_data := some sampleLocData }).isSome :=
  async_update_subscribe_iff sampleResolver ⟨[(none, sampleLocData)], []⟩
    sampleEntityDefault { sampleEntityDefault with _loc_data := some sampleLocData }
    ⟨[(none, sampleLocData)], []⟩
    [EEffect.dispatcherConnect, EEffect.updateState] rfl

/-- C3: when the `update_location` service call resolves to an entry that was
imported (not user-created), or to one without a latitude in its options, the
handler raises `ValueError` having performed no effect — in particular
`async_update_entry` was never called, so the entry's options are unchanged. -/
theorem update_location_rejects_atomically
    (xf : List (String × Val) → List (String × Val)) (hass : Hass)
    (location : String) (lc : List (String × Val))
    (entry : ConfigEntry) (opts : List (String × Val))
    (hfind : _entry_by_title hass location = .ok (entry, opts))
    (hbad : entry.source = SOURCE_IMPORT ∨ dictGet opts CONF_LATITUDE = none) :
    update_location xf hass location lc = (.error .valueError, []) := by
  unfold update_location
  rw [hfind]
  dsimp only
  rcases hbad with hb | hb
  · rw [if_pos]
    rw [hb]
    decide
  · by_cases hs : entry.source ≠ SOURCE_USER
    · rw [if_pos hs]
    · rw [if_neg hs, if_pos hb]

/-- Witness for C3: rejecting an update aimed at a concrete imported entry. -/
theorem update_location_rejects_atomically_witness :
    update_location (fun l => l) sampleHass "Imported" [] =
      (.error .valueError, []) :=
  update_location_rejects_atomically (fun l => l) sampleHass "Imported" []
    sampleImportEntry [(CONF_LATITUDE, Val.num 1)] rfl (Or.inl rfl)

/-- C4: the default refresh replaces the `None`-key cache entry with a
`LocData` freshly derived from the host's current configuration; every
sequence of subsequent lookups still finds exactly that `LocData` under the
`None` key; and refreshing again with unchanged host configuration returns
the same value and leaves the host state identical. -/
theorem refresh_default_spec (r : String → Option String) (hass : Hass) :
    (_update_local_loc_data r hass).1 = LocData.from_hass_config r hass.config ∧
    dictGet (_update_local_loc_data r hass).2.sunData.locations none =
      some ((_update_local_loc_data r hass).1) ∧
    (∀ ks : List (Option LocParams),
      dictGet (runLookups r (_update_local_loc_data r hass).2.sunData ks).locations
          none =
        some ((_update_local_loc_data r hass).1)) ∧
    _update_local_loc_data r ((_update_local_loc_data r hass).2) =
      ((_update_local_loc_data r hass).1, (_update_local_loc_data r hass).2) := by
  refine ⟨rfl, ?_, ?_, ?_⟩
  · exact dictGet_dictInsert_self hass.sunData.locations none
      (LocData.from_hass_config r hass.config)
  · intro ks
    rw [runLookups_none_entry]
    exact dictGet_dictInsert_self hass.sunData.locations none
      (LocData.from_hass_config r hass.config)
  · obtain ⟨cfg, entries, locs, trans⟩ := hass
    simp [_update_local_loc_data, dictInsert_idem]

/-- C7: both cache operations — first-lookup memoization in `_get_loc_data`
and the default refresh in `_update_local_loc_data` — preserve the invariant
that the shared cache holds at most one `LocData` per distinct key, and after
a refresh the `None` key maps to the `LocData` derived from the current host
configuration. -/
theorem cache_invariant_preserved (r : String → Option String)
    (s : Sun2Data) (p : Option LocParams) (d : LocData) (s' : Sun2Data)
    (tr : List EEffect) (hass : Hass)
    (hs : keysNodup s) (hh : keysNodup hass.sunData) :
    (_get_loc_data r s p = .ok (d, s', tr) → keysNodup s') ∧
    keysNodup (_update_local_loc_data r hass).2.sunData ∧
    dictGet (_update_local_loc_data r hass).2.sunData.locations none =
      some (LocData.from_hass_config r hass.config) := by
  refine ⟨?_, ?_, ?_⟩
  · intro h
    unfold _get_loc_data at h
    split at h
    next d0 hget =>
      simp only [Except.ok.injEq, Prod.mk.injEq] at h
      obtain ⟨rfl, rfl, rfl⟩ := h
      exact hs
    next hget =>
      split at h
      next q =>
        simp only [Except.ok.injEq, Prod.mk.injEq] at h
        obtain ⟨rfl, rfl, rfl⟩ := h
        exact keys_nodup_dictInsert s.locations (some q) (LocData.init r q) hs
      next => exact Except.noConfusion h
  · exact keys_nodup_dictInsert hass.sunData.locations none
      (LocData.from_hass_config r hass.config) hh
  · exact dictGet_dictInsert_self hass.sunData.locations none
      (LocData.from_hass_config r hass.config)

/-- Witness for C7: a concrete miss-then-store on the empty cache and a
concrete refresh. -/
theorem cache_invariant_preserved_witness :
    keysNodup sampleCachedData ∧
    keysNodup (_update_local_loc_data sampleResolver sampleHass).2.sunData ∧
    dictGet (_update_local_loc_data sampleResolver sampleHass).2.sunData.locations
        none =
      some (LocData.from_hass_config sampleResolver sampleHass.config) := by
  have h := cache_invariant_preserved sampleResolver emptySun2Data
    (some sampleParams) sampleLocData sampleCachedData [] sampleHass
    (by decide) (by decide)
  exact ⟨h.1 rfl, h.2.1, h.2.2⟩

/-- C6 counterexample: a core-config event whose data contains
`location_name` refreshes the default entry but does not broadcast on the
dispatcher — its effect trace is just the YAML re-import, with no
`dispatcherSend` — so the claim that every config-changed event leads to a
broadcast fails. -/
theorem core_update_no_broadcast_cex :
    (handle_core_config_update sampleResolver sampleHass ["location_name"]).2 =
      [HEffect.reloadConfig] ∧
    ((handle_core_config_update sampleResolver sampleHass
        ["location_name"]).2.filter isDispatcherSend) = [] := by
  constructor <;> rfl

/-- C6 (amended): for every core-config event whose data is non-empty and
contains neither `location_name` nor `language`, the handler first refreshes
the default cache entry and then broadcasts exactly that new `LocData` on the
dispatcher; any bound entity receiving the broadcast stores it and requests a
state refresh from the host. -/
theorem core_update_refresh_then_broadcast (r : String → Option String)
    (hass : Hass) (keys : List String)
    (hne : keys ≠ []) (hl : "location_name" ∉ keys) (hg : "language" ∉ keys) :
    handle_core_config_update r hass keys =
      ((_update_local_loc_data r hass).2,
       [HEffect.dispatcherSend ((_update_local_loc_data r hass).1)]) ∧
    dictGet (_update_local_loc_data r hass).2.sunData.locations none =
      some ((_update_local_loc_data r hass).1) ∧
    (∀ e : Entity,
      (_async_loc_updated e ((_update_local_loc_data r hass).1)).1._loc_data =
        some ((_update_local_loc_data r hass).1) ∧
      EEffect.scheduleUpdateHaState ∈
        (_async_loc_updated e ((_update_local_loc_data r hass).1)).2) := by
  refine ⟨?_, ?_, ?_⟩
  · unfold handle_core_config_update
    rw [if_neg hne, if_pos]
    intro hmem
    rcases hmem with hmem | hmem
    · exact hl hmem
    · exact hg hmem
  · exact dictGet_dictInsert_self hass.sunData.locations none
      (LocData.from_hass_config r hass.config)
  · intro e
    by_cases hu : e._unsub_update <;>
      simp [_async_loc_updated, _cancel_update, hu]

/-- Witness for the amended C6: a concrete latitude-only config change. -/
theorem core_update_refresh_then_broadcast_witness :
    handle_core_config_update sampleResolver sampleHass ["latitude"] =
      ((_update_local_loc_data sampleResolver sampleHass).2,
       [HEffect.dispatcherSend
          ((_update_local_loc_data sampleResolver sampleHass).1)]) ∧
    dictGet
        (_update_local_loc_data sampleResolver sampleHass).2.sunData.locations
        none =
      some ((_update_local_loc_data sampleResolver sampleHass).1) ∧
    (∀ e : Entity,
      (_async_loc_updated e
          ((_update_local_loc_data sampleResolver sampleHass).1)).1._loc_data =
        some ((_update_local_loc_data sampleResolver sampleHass).1) ∧
      EEffect.scheduleUpdateHaState ∈
        (_async_loc_updated e
          ((_update_local_loc_data sampleResolver sampleHass).1)).2) :=
  core_update_refresh_then_broadcast sampleResolver sampleHass ["latitude"]
    (by decide) (by decide) (by decide)

end Sun2
